import Mathlib

/-! # The Instana REST client (`instana/restapi/rest-client.go`)

A shallow embedding of `RestClientImpl` and of its four operations `GetOne`, `GetAll`, `Put`
and `Delete`, together with the URL builders `buildURL` and `buildResourceURL`.

Modelling conventions.

* A Go `string` is a Lean `String`.  The only tests the client makes on strings are
  `strings.HasPrefix (_, "/")` and `strings.HasSuffix (_, "/")`; `/` is a one-byte character, so on
  UTF-8 text the byte-wise tests of Go and the character-wise tests used here agree.
* A Go `[]byte` is the list of its bytes; a slice of length zero is `[]`.
* A Go `error` is `Option GoError`, `none` being `nil`.
* A Go `int` is an `Int`; the client only compares status codes with constants and prints them.
* `fmt.Sprintf` and `fmt.Errorf` are interpreted over their format string, see `Sprintf`.
* The HTTP library (`resty`) is a parameter: a `Transport` maps the request that is sent to the
  response pointer and error that `Get`, `Put` or `Delete` hand back.  The pointer may be nil
  (`none`): `resty` hands back `(nil, err)` when it fails before anything is sent, for instance
  on a URL it cannot parse.  The accessors `StatusCode ()`, `Status ()` and `Body ()` read
  their receiver, so on a nil pointer they panic.
* A Go function that may panic returns `Except Panic _`, `.error` being the panic.
* `log.Infof` only writes a log line and is left out.
-/

namespace Instana

/-! ## Errors -/

/-- Go `error` values seen by the client: the package-level value `ErrEntityNotFound`
(created once by `errors.New`, compared by identity), and errors freshly allocated by
`fmt.Errorf` or handed back by the HTTP library, which carry a message. -/
inductive GoError where
  | ErrEntityNotFound
  | errorString (msg : String)
  deriving DecidableEq, Repr

/-- The method `Error ()` of a Go error. -/
def GoError.Error : GoError → String
  | .ErrEntityNotFound => "Failed to get resource from Instana API. 404 - Resource not found"
  | .errorString msg => msg

/-! ## The fragment of package `fmt` that the client uses -/

/-- An operand of `fmt.Sprintf`. -/
inductive Arg where
  | str (s : String)
  | int (n : Int)
  | err (e : GoError)

/-- The text `type=value` that `fmt` prints for an operand it cannot format with the verb at
hand (for an error operand the type name is abbreviated to `error`). -/
def badOperand : Arg → List Char
  | .str s => "string=".data ++ s.data
  | .int n => "int=".data ++ (toString n).data
  | .err e => "error=".data ++ e.Error.data

/-- One operand under one verb: `%s` prints a string as it is and an error through its
`Error ()` method, `%d` prints an integer in decimal with a leading `-` when negative.  Every
other combination, none of which occurs in the client, gives the bad-verb text
`%!verb(type=value)`. -/
def formatArg (verb : Char) (a : Arg) : List Char :=
  match a with
  | .str s =>
    if verb = 's' then s.data else "%!".data ++ [verb] ++ ['('] ++ badOperand a ++ [')']
  | .int n =>
    if verb = 'd' then (toString n).data
    else "%!".data ++ [verb] ++ ['('] ++ badOperand a ++ [')']
  | .err e =>
    if verb = 's' then e.Error.data
    else "%!".data ++ [verb] ++ ['('] ++ badOperand a ++ [')']

/-- The text `fmt` appends for operands left over at the end of the format. -/
def extraOperands : List Arg → List Char
  | [] => []
  | a :: as =>
    "%!(EXTRA ".data ++ badOperand a ++ (as.map fun b => ", ".data ++ badOperand b).flatten ++ [')']

/-- The scanning loop of `fmt.Sprintf`: text is copied, `%%` is a percent sign, and `%` followed
by a verb consumes the next operand. -/
def doPrintf : List Char → List Arg → List Char
  | [], args => extraOperands args
  | c :: rest, args =>
    if c = '%' then
      match rest, args with
      | [], _ => "%!(NOVERB)".data
      | v :: tl, [] =>
        if v = '%' then '%' :: doPrintf tl []
        else "%!".data ++ [v] ++ "(MISSING)".data ++ doPrintf tl []
      | v :: tl, a :: as =>
        if v = '%' then '%' :: doPrintf tl (a :: as)
        else formatArg v a ++ doPrintf tl as
    else c :: doPrintf rest args

/-- Go `fmt.Sprintf`, for the verbs `%s` and `%d`. -/
def Sprintf (format : String) (args : List Arg) : String :=
  ⟨doPrintf format.data args⟩

/-- Go `fmt.Errorf`: a fresh error whose message is the formatted text. -/
def Errorf (format : String) (args : List Arg) : GoError :=
  .errorString (Sprintf format args)

/-! ## The fragment of package `strings` that the client uses -/

namespace strings

/-- Go `strings.HasPrefix`: `len(s) >= len(prefix) && s[0:len(prefix)] == prefix`. -/
def HasPrefix (s pre : String) : Bool :=
  decide (s.length ≥ pre.length) && (s.data.take pre.length == pre.data)

/-- Go `strings.HasSuffix`: `len(s) >= len(suffix) && s[len(s)-len(suffix):] == suffix`. -/
def HasSuffix (s suf : String) : Bool :=
  decide (s.length ≥ suf.length) && (s.data.drop (s.length - suf.length) == suf.data)

end strings

/-! ## The HTTP library, as far as the client sees it -/

/-- One byte. -/
abbrev Byte := Fin 256

/-- A run-time panic of the Go program. -/
inductive Panic where
  | nilPointerDereference
  deriving DecidableEq, Repr

/-- A `resty.Response`, as far as its accessors read it. -/
structure Response where
  StatusCode : Int
  Status : String
  Body : List Byte
  deriving DecidableEq, Repr

namespace resty

/-- A `resty.Request`: headers and body are set by the client, method and URL by the call that
sends it.  The body is a value of the type `α` of data objects. -/
structure Request (α : Type) where
  Method : String
  URL : String
  Header : List (String × String)
  Body : Option α

/-- The request `resty.R ()`: nothing set yet. -/
def R {α : Type} : Request α :=
  { Method := "", URL := "", Header := [], Body := none }

/-- The method `SetHeader`: the header gets the given value, replacing an earlier one. -/
def Request.SetHeader {α : Type} (r : Request α) (header value : String) : Request α :=
  { r with Header := r.Header.filter (fun kv => kv.1 != header) ++ [(header, value)] }

/-- The method `SetBody`. -/
def Request.SetBody {α : Type} (r : Request α) (body : α) : Request α :=
  { r with Body := some body }

end resty

/-- What a call of `Get`, `Put` or `Delete` hands back: the `*resty.Response`, `none` being
the nil pointer, and the error. -/
abbrev Outcome := Option Response × Option GoError

/-- The network and the HTTP library: the outcome of sending a request. -/
abbrev Transport (α : Type) := resty.Request α → Outcome

namespace resty

/-- The method `Get` of a request, over transport `t`. -/
def Request.Get {α : Type} (r : Request α) (t : Transport α) (url : String) : Outcome :=
  t { r with Method := "GET", URL := url }

/-- The method `Put` of a request, over transport `t`. -/
def Request.Put {α : Type} (r : Request α) (t : Transport α) (url : String) : Outcome :=
  t { r with Method := "PUT", URL := url }

/-- The method `Delete` of a request, over transport `t`. -/
def Request.Delete {α : Type} (r : Request α) (t : Transport α) (url : String) : Outcome :=
  t { r with Method := "DELETE", URL := url }

/-- The accessor `StatusCode ()` of a `*resty.Response`; on the nil pointer it panics. -/
def StatusCode (resp : Option Response) : Except Panic Int :=
  match resp with
  | some r => .ok r.StatusCode
  | none => .error .nilPointerDereference

/-- The accessor `Status ()` of a `*resty.Response`; on the nil pointer it panics. -/
def Status (resp : Option Response) : Except Panic String :=
  match resp with
  | some r => .ok r.Status
  | none => .error .nilPointerDereference

/-- The accessor `Body ()` of a `*resty.Response`; on the nil pointer it panics. -/
def Body (resp : Option Response) : Except Panic (List Byte) :=
  match resp with
  | some r => .ok r.Body
  | none => .error .nilPointerDereference

end resty

/-- The interface `InstanaDataObject`, of which the client calls `GetID ()` only. -/
class InstanaDataObject (α : Type) where
  GetID : α → String

/-! ## The client -/

/-- The struct `RestClientImpl`. -/
structure RestClientImpl where
  apiToken : String
  host : String
  deriving DecidableEq, Repr

/-- The constructor `NewClient`. -/
def NewClient (apiToken : String) (host : String) : RestClientImpl :=
  { apiToken := apiToken, host := host }

/-- The package-level `emptyResponse = make([]byte, 0)`. -/
def emptyResponse : List Byte := []

/-- The package-level error `ErrEntityNotFound`. -/
def ErrEntityNotFound : GoError := .ErrEntityNotFound

namespace RestClientImpl

/-- The method `buildURL`. -/
def buildURL (client : RestClientImpl) (resourcePath : String) : String :=
  let apiPath := "api"
  let apiPath := if !strings.HasPrefix resourcePath "/" then apiPath ++ "/" else apiPath
  Sprintf "https://%s/%s%s" [.str client.host, .str apiPath, .str resourcePath]

/-- The method `buildResourceURL`. -/
def buildResourceURL (client : RestClientImpl) (resourceBasePath : String) (id : String) :
    String :=
  let pattern := "%s/%s"
  let pattern := if strings.HasSuffix resourceBasePath "/" then "%s%s" else pattern
  let resourcePath := Sprintf pattern [.str resourceBasePath, .str id]
  client.buildURL resourcePath

/-- The method `newResty`. -/
def newResty {α : Type} (client : RestClientImpl) : resty.Request α :=
  (resty.R.SetHeader "Accept" "application/json").SetHeader "Authorization"
    (Sprintf "apiToken %s" [.str client.apiToken])

/-- The method `get`.  The operands of `fmt.Errorf` are evaluated from left to right. -/
def get {α : Type} (client : RestClientImpl) (t : Transport α) (url : String) :
    Except Panic (List Byte × Option GoError) := do
  let (resp, err) := client.newResty.Get t url
  match err with
  | some e =>
    return (emptyResponse, some (Errorf
      "failed to send HTTP GET request to Instana API; status code = %d; status message = %s, %s"
      [.int (← resty.StatusCode resp), .str (← resty.Status resp), .err e]))
  | none =>
    let statusCode ← resty.StatusCode resp
    if statusCode = 404 then return (emptyResponse, some ErrEntityNotFound)
    else if statusCode < 200 ∨ statusCode ≥ 300 then
      return (emptyResponse, some (Errorf
        "failed to send HTTP GET request to Instana API; status code = %d; status message = %s"
        [.int statusCode, .str (← resty.Status resp)]))
    else return (← resty.Body resp, none)

/-- The method `GetOne`. -/
def GetOne {α : Type} (client : RestClientImpl) (t : Transport α) (id : String)
    (resourcePath : String) : Except Panic (List Byte × Option GoError) :=
  client.get t (client.buildResourceURL resourcePath id)

/-- The method `GetAll`. -/
def GetAll {α : Type} (client : RestClientImpl) (t : Transport α) (resourcePath : String) :
    Except Panic (List Byte × Option GoError) :=
  client.get t (client.buildURL resourcePath)

/-- The method `Put`. -/
def Put {α : Type} [InstanaDataObject α] (client : RestClientImpl) (t : Transport α) (data : α)
    (resourcePath : String) : Except Panic (List Byte × Option GoError) := do
  let url := client.buildResourceURL resourcePath (InstanaDataObject.GetID data)
  let (resp, err) := (client.newResty.SetBody data).Put t url
  match err with
  | some e =>
    return (emptyResponse, some (Errorf
      "failed to send HTTP PUT request to Instana API; status code = %d; status message = %s, %s"
      [.int (← resty.StatusCode resp), .str (← resty.Status resp), .err e]))
  | none =>
    let statusCode ← resty.StatusCode resp
    if statusCode < 200 ∨ statusCode ≥ 300 then
      return (emptyResponse, some (Errorf
        "failed to send HTTP PUT request to Instana API; status code = %d; status message = %s"
        [.int statusCode, .str (← resty.Status resp)]))
    else return (← resty.Body resp, none)

/-- The method `Delete`. -/
def Delete {α : Type} (client : RestClientImpl) (t : Transport α) (resourceID : String)
    (resourceBasePath : String) : Except Panic (Option GoError) := do
  let url := client.buildResourceURL resourceBasePath resourceID
  let (resp, err) := client.newResty.Delete t url
  match err with
  | some e =>
    return some (Errorf
      "failed to send HTTP DELETE request to Instana API; status code = %d; status message = %s, %s"
      [.int (← resty.StatusCode resp), .str (← resty.Status resp), .err e])
  | none =>
    let statusCode ← resty.StatusCode resp
    if statusCode < 200 ∨ statusCode ≥ 300 then
      return some (Errorf
        "failed to send HTTP DELETE request to Instana API; status code = %d; status message = %s"
        [.int statusCode, .str (← resty.Status resp)])
    else return none

end RestClientImpl

/-! ## Vocabulary of the statements -/

/-- Transport `t` answers every request with the given method to the given URL by `out`. -/
def respondsTo {α : Type} (t : Transport α) (method url : String) (out : Outcome) : Prop :=
  ∀ r : resty.Request α, r.Method = method → r.URL = url → t r = out

/-- The message of the generic error of a request that was answered with a status outside
`[200,300)`: it names the HTTP method, the status code in decimal and the status text. -/
def requestFailed (method : String) (statusCode : Int) (status : String) : String :=
  "failed to send HTTP " ++ method ++ " request to Instana API; status code = "
    ++ toString statusCode ++ "; status message = " ++ status

/-- The message of the generic error of a request that the transport failed to carry out: the
message of `requestFailed`, followed by the text of the cause. -/
def transportFailed (method : String) (statusCode : Int) (status : String) (cause : GoError) :
    String :=
  requestFailed method statusCode status ++ ", " ++ cause.Error

/-- The message `msg` contains the text `part`. -/
def carries (msg part : String) : Prop :=
  part.data <:+: msg.data

/-- The error component of what `GetOne`, `GetAll` or `Put` do. -/
def errorOf (r : Except Panic (List Byte × Option GoError)) : Except Panic (Option GoError) :=
  r.map Prod.snd

/-- The operation returns, and the error it returns is the generic error made by `fmt.Errorf`
with message `msg`: it is not nil, it is not `ErrEntityNotFound`, and `msg` contains each of
the texts `parts`. -/
def failsWith (r : Except Panic (Option GoError)) (msg : String) (parts : List String) : Prop :=
  r = .ok (some (.errorString msg)) ∧ r ≠ .ok none ∧ r ≠ .ok (some ErrEntityNotFound) ∧
    ∀ p ∈ parts, carries msg p

/-- A data object for examples: an identifier and a payload. -/
structure SampleObject where
  id : String
  payload : String
  deriving DecidableEq, Repr

instance : InstanaDataObject SampleObject where
  GetID o := o.id

/-- A transport that answers every request by the same outcome. -/
def constTransport (α : Type) (out : Outcome) : Transport α :=
  fun _ => out


/-! ## Formatting lemmas -/

theorem Sprintf_url (h a p : String) :
    Sprintf "https://%s/%s%s" [.str h, .str a, .str p] = "https://" ++ h ++ "/" ++ a ++ p := by
  apply String.ext
  simp [Sprintf, doPrintf, formatArg, extraOperands]

theorem Sprintf_sep (p i : String) : Sprintf "%s/%s" [.str p, .str i] = p ++ "/" ++ i := by
  apply String.ext
  simp [Sprintf, doPrintf, formatArg, extraOperands]

theorem Sprintf_nosep (p i : String) : Sprintf "%s%s" [.str p, .str i] = p ++ i := by
  apply String.ext
  simp [Sprintf, doPrintf, formatArg, extraOperands]

theorem slash_data : ("/" : String).data = ['/'] := rfl

theorem hasPrefix_slash (s : String) : strings.HasPrefix s "/" = true ↔ ∃ q, s = "/" ++ q := by
  obtain ⟨l⟩ := s
  cases l with
  | nil =>
    constructor
    · intro h
      simp [strings.HasPrefix, String.length] at h
    · rintro ⟨q, hq⟩
      have h1 := congrArg String.data hq
      rw [String.data_append, slash_data] at h1
      simp at h1
  | cons c cs =>
    constructor
    · intro h
      have hc : c = '/' := by
        simpa [strings.HasPrefix, String.length, slash_data] using h
      exact ⟨⟨cs⟩, by subst hc; rfl⟩
    · rintro ⟨q, hq⟩
      have h1 := congrArg String.data hq
      rw [String.data_append, slash_data] at h1
      simp at h1
      simp [strings.HasPrefix, String.length, slash_data, h1.1]

theorem hasSuffix_slash (s : String) : strings.HasSuffix s "/" = true ↔ ∃ q, s = q ++ "/" := by
  constructor
  · intro h
    obtain ⟨l⟩ := s
    rcases List.eq_nil_or_concat l with rfl | ⟨m, a, rfl⟩
    · simp [strings.HasSuffix, String.length] at h
    · have ha : a = '/' := by
        simpa [strings.HasSuffix, String.length, slash_data] using h
      exact ⟨⟨m⟩, by subst ha; apply String.ext; simp⟩
  · rintro ⟨q, rfl⟩
    have hl : ("/" : String).length = 1 := rfl
    have h2 : (q ++ "/").length = q.data.length + 1 := by
      show (q ++ "/").data.length = _
      rw [String.data_append, slash_data]; simp
    unfold strings.HasSuffix
    rw [hl, h2, String.data_append, slash_data]
    simp

/-! ## URL construction -/

theorem buildURL_eq (c : RestClientImpl) (p : String) :
    c.buildURL p =
      "https://" ++ c.host ++ "/" ++ (if strings.HasPrefix p "/" then "api" else "api/") ++ p := by
  unfold RestClientImpl.buildURL
  rw [Sprintf_url]
  cases strings.HasPrefix p "/" <;> simp

theorem buildURL_of_slash (c : RestClientImpl) (q : String) :
    c.buildURL ("/" ++ q) = "https://" ++ c.host ++ "/api/" ++ q := by
  rw [buildURL_eq, if_pos ((hasPrefix_slash _).2 ⟨q, rfl⟩)]
  apply String.ext
  simp [String.data_append]

theorem buildURL_of_no_slash (c : RestClientImpl) (p : String) (h : ¬ ∃ q, p = "/" ++ q) :
    c.buildURL p = "https://" ++ c.host ++ "/api/" ++ p := by
  have hp : ¬ strings.HasPrefix p "/" = true := fun hh => h ((hasPrefix_slash p).1 hh)
  rw [buildURL_eq, if_neg hp]
  apply String.ext
  simp [String.data_append]

theorem buildResourceURL_eq (c : RestClientImpl) (p i : String) :
    c.buildResourceURL p i =
      c.buildURL (if strings.HasSuffix p "/" then p ++ i else p ++ "/" ++ i) := by
  unfold RestClientImpl.buildResourceURL
  cases strings.HasSuffix p "/" <;> simp [Sprintf_sep, Sprintf_nosep]

/-- C2: `buildURL` puts exactly one slash between `api` and the path. -/
theorem buildURL_spec (apiToken H P : String) :
    ((¬ ∃ q, P = "/" ++ q) →
      (NewClient apiToken H).buildURL P = "https://" ++ H ++ "/api/" ++ P) ∧
    ((∃ q, P = "/" ++ q) →
      (NewClient apiToken H).buildURL P = "https://" ++ H ++ "/api" ++ P) ∧
    (NewClient apiToken "host.example.com").buildURL "events"
      = "https://host.example.com/api/events" := by
  refine ⟨fun h => buildURL_of_no_slash _ P h, ?_, rfl⟩
  rintro ⟨q, rfl⟩
  rw [buildURL_of_slash]
  apply String.ext
  simp [String.data_append, NewClient]

theorem buildURL_spec_witness :
    (NewClient "token" "host.example.com").buildURL "alerts/7"
      = "https://" ++ "host.example.com" ++ "/api/" ++ "alerts/7" ∧
    (NewClient "token" "host.example.com").buildURL "/alerts/7"
      = "https://" ++ "host.example.com" ++ "/api" ++ "/alerts/7" :=
  ⟨(buildURL_spec "token" "host.example.com" "alerts/7").1
      (fun h => by rw [← hasPrefix_slash] at h; revert h; decide),
   (buildURL_spec "token" "host.example.com" "/alerts/7").2.1 ⟨"alerts/7", rfl⟩⟩

/-- C1: `buildResourceURL` joins base path and id with one slash, which it inserts unless the
base path already ends with one, and hands the result to `buildURL`. -/
theorem buildResourceURL_spec (apiToken H P I : String) :
    ((∃ q, P = q ++ "/") →
      (NewClient apiToken H).buildResourceURL P I = (NewClient apiToken H).buildURL (P ++ I)) ∧
    ((¬ ∃ q, P = q ++ "/") →
      (NewClient apiToken H).buildResourceURL P I
        = (NewClient apiToken H).buildURL (P ++ "/" ++ I)) ∧
    (NewClient apiToken "host.example.com").buildResourceURL "events/" "42"
      = "https://host.example.com/api/events/42" ∧
    (NewClient apiToken "host.example.com").buildResourceURL "events" "42"
      = "https://host.example.com/api/events/42" := by
  refine ⟨fun h => ?_, fun h => ?_, rfl, rfl⟩
  · rw [buildResourceURL_eq, if_pos ((hasSuffix_slash P).2 h)]
  · have hp : ¬ strings.HasSuffix P "/" = true := fun hh => h ((hasSuffix_slash P).1 hh)
    rw [buildResourceURL_eq, if_neg hp]

theorem buildResourceURL_spec_witness :
    (NewClient "token" "host.example.com").buildResourceURL "alerts/" "7"
      = (NewClient "token" "host.example.com").buildURL ("alerts/" ++ "7") ∧
    (NewClient "token" "host.example.com").buildResourceURL "alerts" "7"
      = (NewClient "token" "host.example.com").buildURL ("alerts" ++ "/" ++ "7") :=
  ⟨(buildResourceURL_spec "token" "host.example.com" "alerts/" "7").1 ⟨"alerts", rfl⟩,
   (buildResourceURL_spec "token" "host.example.com" "alerts" "7").2.1
      (fun h => by rw [← hasSuffix_slash] at h; revert h; decide)⟩

/-! ## The error messages -/

theorem Sprintf_get_failed (n : Int) (s : String) :
    Sprintf "failed to send HTTP GET request to Instana API; status code = %d; status message = %s"
      [.int n, .str s] = requestFailed "GET" n s := by
  apply String.ext
  simp [Sprintf, doPrintf, formatArg, extraOperands, requestFailed]

theorem Sprintf_put_failed (n : Int) (s : String) :
    Sprintf "failed to send HTTP PUT request to Instana API; status code = %d; status message = %s"
      [.int n, .str s] = requestFailed "PUT" n s := by
  apply String.ext
  simp [Sprintf, doPrintf, formatArg, extraOperands, requestFailed]

theorem Sprintf_delete_failed (n : Int) (s : String) :
    Sprintf
      "failed to send HTTP DELETE request to Instana API; status code = %d; status message = %s"
      [.int n, .str s] = requestFailed "DELETE" n s := by
  apply String.ext
  simp [Sprintf, doPrintf, formatArg, extraOperands, requestFailed]

theorem Sprintf_get_transport (n : Int) (s : String) (e : GoError) :
    Sprintf
      "failed to send HTTP GET request to Instana API; status code = %d; status message = %s, %s"
      [.int n, .str s, .err e] = transportFailed "GET" n s e := by
  apply String.ext
  simp [Sprintf, doPrintf, formatArg, extraOperands, requestFailed, transportFailed]

theorem Sprintf_put_transport (n : Int) (s : String) (e : GoError) :
    Sprintf
      "failed to send HTTP PUT request to Instana API; status code = %d; status message = %s, %s"
      [.int n, .str s, .err e] = transportFailed "PUT" n s e := by
  apply String.ext
  simp [Sprintf, doPrintf, formatArg, extraOperands, requestFailed, transportFailed]

theorem Sprintf_delete_transport (n : Int) (s : String) (e : GoError) :
    Sprintf
      "failed to send HTTP DELETE request to Instana API; status code = %d; status message = %s, %s"
      [.int n, .str s, .err e] = transportFailed "DELETE" n s e := by
  apply String.ext
  simp [Sprintf, doPrintf, formatArg, extraOperands, requestFailed, transportFailed]

theorem requestFailed_carries (method : String) (n : Int) (s : String) :
    carries (requestFailed method n s) (toString n) ∧ carries (requestFailed method n s) s := by
  constructor
  · refine ⟨("failed to send HTTP " ++ method ++ " request to Instana API; status code = ").data,
      ("; status message = " ++ s).data, ?_⟩
    simp [requestFailed, String.data_append]
  · refine List.IsSuffix.isInfix
      ⟨("failed to send HTTP " ++ method ++ " request to Instana API; status code = "
        ++ toString n ++ "; status message = ").data, ?_⟩
    simp [requestFailed, String.data_append]

theorem transportFailed_carries (method : String) (n : Int) (s : String) (e : GoError) :
    carries (transportFailed method n s e) e.Error :=
  List.IsSuffix.isInfix
    ⟨(requestFailed method n s ++ ", ").data, by simp [transportFailed, String.data_append]⟩

/-! ## The operations, case by case -/

section cases
variable {α : Type} (c : RestClientImpl) (t : Transport α) (url : String) (resp : Response)

theorem get_transport_failure (e : GoError) (h : respondsTo t "GET" url (some resp, some e)) :
    c.get t url = .ok (emptyResponse,
      some (.errorString (transportFailed "GET" resp.StatusCode resp.Status e))) := by
  have ht := h { c.newResty with Method := "GET", URL := url } rfl rfl
  simp only [RestClientImpl.get, resty.Request.Get, ht, Errorf, Sprintf_get_transport,
    resty.StatusCode, resty.Status]
  rfl

theorem get_answered (h : respondsTo t "GET" url (some resp, none)) :
    c.get t url =
      if resp.StatusCode = 404 then .ok (emptyResponse, some ErrEntityNotFound)
      else if resp.StatusCode < 200 ∨ resp.StatusCode ≥ 300 then
        .ok (emptyResponse,
          some (.errorString (requestFailed "GET" resp.StatusCode resp.Status)))
      else .ok (resp.Body, none) := by
  have ht := h { c.newResty with Method := "GET", URL := url } rfl rfl
  simp only [RestClientImpl.get, resty.Request.Get, ht, Errorf, Sprintf_get_failed,
    resty.StatusCode, resty.Status, resty.Body]
  by_cases h404 : resp.StatusCode = 404
  · simp only [h404]; rfl
  · by_cases hr : resp.StatusCode < 200 ∨ resp.StatusCode ≥ 300
    · simp only [if_neg h404, if_pos hr, bind, Except.bind]; rfl
    · simp only [if_neg h404, if_neg hr, bind, Except.bind]; rfl

theorem get_nil_response (err : Option GoError) (h : respondsTo t "GET" url (none, err)) :
    c.get t url = .error .nilPointerDereference := by
  have ht := h { c.newResty with Method := "GET", URL := url } rfl rfl
  cases err <;>
    simp only [RestClientImpl.get, resty.Request.Get, ht, resty.StatusCode] <;> rfl

theorem put_transport_failure [InstanaDataObject α] (data : α) (path : String) (e : GoError)
    (h : respondsTo t "PUT" (c.buildResourceURL path (InstanaDataObject.GetID data))
      (some resp, some e)) :
    c.Put t data path = .ok (emptyResponse,
      some (.errorString (transportFailed "PUT" resp.StatusCode resp.Status e))) := by
  have ht := h { c.newResty.SetBody data with
    Method := "PUT", URL := c.buildResourceURL path (InstanaDataObject.GetID data) } rfl rfl
  simp only [RestClientImpl.Put, resty.Request.Put, ht, Errorf, Sprintf_put_transport,
    resty.StatusCode, resty.Status]
  rfl

theorem put_answered [InstanaDataObject α] (data : α) (path : String)
    (h : respondsTo t "PUT" (c.buildResourceURL path (InstanaDataObject.GetID data))
      (some resp, none)) :
    c.Put t data path =
      if resp.StatusCode < 200 ∨ resp.StatusCode ≥ 300 then
        .ok (emptyResponse,
          some (.errorString (requestFailed "PUT" resp.StatusCode resp.Status)))
      else .ok (resp.Body, none) := by
  have ht := h { c.newResty.SetBody data with
    Method := "PUT", URL := c.buildResourceURL path (InstanaDataObject.GetID data) } rfl rfl
  simp only [RestClientImpl.Put, resty.Request.Put, ht, Errorf, Sprintf_put_failed,
    resty.StatusCode, resty.Status, resty.Body]
  by_cases hr : resp.StatusCode < 200 ∨ resp.StatusCode ≥ 300
  · simp only [if_pos hr, bind, Except.bind]; rfl
  · simp only [if_neg hr, bind, Except.bind]; rfl

theorem put_nil_response [InstanaDataObject α] (data : α) (path : String)
    (err : Option GoError)
    (h : respondsTo t "PUT" (c.buildResourceURL path (InstanaDataObject.GetID data))
      (none, err)) :
    c.Put t data path = .error .nilPointerDereference := by
  have ht := h { c.newResty.SetBody data with
    Method := "PUT", URL := c.buildResourceURL path (InstanaDataObject.GetID data) } rfl rfl
  cases err <;>
    simp only [RestClientImpl.Put, resty.Request.Put, ht, resty.StatusCode] <;> rfl

theorem delete_transport_failure (id path : String) (e : GoError)
    (h : respondsTo t "DELETE" (c.buildResourceURL path id) (some resp, some e)) :
    c.Delete t id path =
      .ok (some (.errorString (transportFailed "DELETE" resp.StatusCode resp.Status e))) := by
  have ht := h { c.newResty with
    Method := "DELETE", URL := c.buildResourceURL path id } rfl rfl
  simp only [RestClientImpl.Delete, resty.Request.Delete, ht, Errorf, Sprintf_delete_transport,
    resty.StatusCode, resty.Status]
  rfl

theorem delete_answered (id path : String)
    (h : respondsTo t "DELETE" (c.buildResourceURL path id) (some resp, none)) :
    c.Delete t id path =
      if resp.StatusCode < 200 ∨ resp.StatusCode ≥ 300 then
        .ok (some (.errorString (requestFailed "DELETE" resp.StatusCode resp.Status)))
      else .ok none := by
  have ht := h { c.newResty with
    Method := "DELETE", URL := c.buildResourceURL path id } rfl rfl
  simp only [RestClientImpl.Delete, resty.Request.Delete, ht, Errorf, Sprintf_delete_failed,
    resty.StatusCode, resty.Status]
  by_cases hr : resp.StatusCode < 200 ∨ resp.StatusCode ≥ 300
  · simp only [if_pos hr, bind, Except.bind]; rfl
  · simp only [if_neg hr, bind, Except.bind]; rfl

theorem delete_nil_response (id path : String) (err : Option GoError)
    (h : respondsTo t "DELETE" (c.buildResourceURL path id) (none, err)) :
    c.Delete t id path = .error .nilPointerDereference := by
  have ht := h { c.newResty with
    Method := "DELETE", URL := c.buildResourceURL path id } rfl rfl
  cases err <;>
    simp only [RestClientImpl.Delete, resty.Request.Delete, ht, resty.StatusCode] <;> rfl

end cases

theorem respondsTo_const (α : Type) (method url : String) (out : Outcome) :
    respondsTo (constTransport α out) method url out :=
  fun _ _ _ => rfl

/-! ## Status classification -/

/-- C3: on a successful transport and status 404, `GetOne` returns `ErrEntityNotFound` itself
and a byte result of length zero, whatever the body of the response. -/
theorem GetOne_not_found {α : Type} (c : RestClientImpl) (t : Transport α)
    (id resourcePath : String) (resp : Response)
    (h : respondsTo t "GET" (c.buildResourceURL resourcePath id) (some resp, none))
    (h404 : resp.StatusCode = 404) :
    c.GetOne t id resourcePath = .ok (emptyResponse, some ErrEntityNotFound) ∧
      emptyResponse.length = 0 := by
  refine ⟨?_, rfl⟩
  unfold RestClientImpl.GetOne
  rw [get_answered c t _ resp h, if_pos h404]

theorem GetOne_not_found_witness :
    (NewClient "token" "host.example.com").GetOne
        (constTransport SampleObject (some ⟨404, "404 Not Found", [1, 2, 3]⟩, none)) "42"
        "events"
      = .ok (emptyResponse, some ErrEntityNotFound) ∧
    emptyResponse.length = 0 :=
  GetOne_not_found _ _ "42" "events" ⟨404, "404 Not Found", [1, 2, 3]⟩
    (respondsTo_const _ _ _ _) rfl

/-- C4, as the code has it: on a successful transport and status 404, `GetAll` returns
`ErrEntityNotFound` itself and a byte result of length zero, like `GetOne`; both go through
`get`, where 404 is singled out. -/
theorem GetAll_not_found {α : Type} (c : RestClientImpl) (t : Transport α)
    (resourcePath : String) (resp : Response)
    (h : respondsTo t "GET" (c.buildURL resourcePath) (some resp, none))
    (h404 : resp.StatusCode = 404) :
    c.GetAll t resourcePath = .ok (emptyResponse, some ErrEntityNotFound) ∧
      emptyResponse.length = 0 := by
  refine ⟨?_, rfl⟩
  unfold RestClientImpl.GetAll
  rw [get_answered c t _ resp h, if_pos h404]

theorem GetAll_not_found_witness :
    (NewClient "token" "host.example.com").GetAll
        (constTransport SampleObject (some ⟨404, "404 Not Found", [1, 2, 3]⟩, none)) "events"
      = .ok (emptyResponse, some ErrEntityNotFound) ∧
    emptyResponse.length = 0 :=
  GetAll_not_found _ _ "events" ⟨404, "404 Not Found", [1, 2, 3]⟩
    (respondsTo_const _ _ _ _) rfl

/-- C4, as stated, fails: answered with status 404 by a transport that succeeds, `GetAll` on
`events` returns `ErrEntityNotFound`, which is neither the generic request-failed error
carrying 404 nor any other error made by `fmt.Errorf`. -/
theorem GetAll_status_404_counterexample :
    respondsTo (constTransport SampleObject (some ⟨404, "404 Not Found", []⟩, none)) "GET"
        ((NewClient "token" "host.example.com").buildURL "events")
        (some ⟨404, "404 Not Found", []⟩, none) ∧
    errorOf ((NewClient "token" "host.example.com").GetAll
        (constTransport SampleObject (some ⟨404, "404 Not Found", []⟩, none)) "events")
      = .ok (some ErrEntityNotFound) ∧
    errorOf ((NewClient "token" "host.example.com").GetAll
        (constTransport SampleObject (some ⟨404, "404 Not Found", []⟩, none)) "events")
      ≠ .ok (some (.errorString (requestFailed "GET" 404 "404 Not Found"))) ∧
    ∀ msg : String,
      errorOf ((NewClient "token" "host.example.com").GetAll
          (constTransport SampleObject (some ⟨404, "404 Not Found", []⟩, none)) "events")
        ≠ .ok (some (.errorString msg)) := by
  have h : errorOf ((NewClient "token" "host.example.com").GetAll
      (constTransport SampleObject (some ⟨404, "404 Not Found", []⟩, none)) "events")
      = .ok (some ErrEntityNotFound) := rfl
  refine ⟨respondsTo_const _ _ _ _, h, ?_, ?_⟩
  · rw [h]; simp [ErrEntityNotFound]
  · intro msg; rw [h]; simp [ErrEntityNotFound]

/-- C5: on a successful transport and a status in `[200,300)`, `GetOne`, `GetAll` and `Put`
return the body of the response as it is with a nil error, and `Delete` returns a nil error. -/
theorem success_returns_body {α : Type} [InstanaDataObject α] (c : RestClientImpl)
    (t : Transport α) (id resourcePath : String) (data : α) (resp : Response)
    (hlo : 200 ≤ resp.StatusCode) (hhi : resp.StatusCode < 300) :
    (respondsTo t "GET" (c.buildResourceURL resourcePath id) (some resp, none) →
      c.GetOne t id resourcePath = .ok (resp.Body, none)) ∧
    (respondsTo t "GET" (c.buildURL resourcePath) (some resp, none) →
      c.GetAll t resourcePath = .ok (resp.Body, none)) ∧
    (respondsTo t "PUT" (c.buildResourceURL resourcePath (InstanaDataObject.GetID data))
        (some resp, none) →
      c.Put t data resourcePath = .ok (resp.Body, none)) ∧
    (respondsTo t "DELETE" (c.buildResourceURL resourcePath id) (some resp, none) →
      c.Delete t id resourcePath = .ok none) := by
  have h404 : ¬ resp.StatusCode = 404 := by omega
  have hr : ¬ (resp.StatusCode < 200 ∨ resp.StatusCode ≥ 300) := by omega
  refine ⟨fun h => ?_, fun h => ?_, fun h => ?_, fun h => ?_⟩
  · unfold RestClientImpl.GetOne
    rw [get_answered c t _ resp h, if_neg h404, if_neg hr]
  · unfold RestClientImpl.GetAll
    rw [get_answered c t _ resp h, if_neg h404, if_neg hr]
  · rw [put_answered c t resp data resourcePath h, if_neg hr]
  · rw [delete_answered c t resp id resourcePath h, if_neg hr]

theorem success_returns_body_witness :
    (NewClient "token" "host.example.com").GetOne
        (constTransport SampleObject (some ⟨204, "204 No Content", [7, 0, 255]⟩, none)) "42"
        "events"
      = .ok ([7, 0, 255], none) ∧
    (NewClient "token" "host.example.com").GetAll
        (constTransport SampleObject (some ⟨204, "204 No Content", [7, 0, 255]⟩, none))
        "events"
      = .ok ([7, 0, 255], none) ∧
    (NewClient "token" "host.example.com").Put
        (constTransport SampleObject (some ⟨204, "204 No Content", [7, 0, 255]⟩, none))
        ⟨"42", "payload"⟩ "events"
      = .ok ([7, 0, 255], none) ∧
    (NewClient "token" "host.example.com").Delete
        (constTransport SampleObject (some ⟨204, "204 No Content", [7, 0, 255]⟩, none)) "42"
        "events"
      = .ok none :=
  have h := success_returns_body (NewClient "token" "host.example.com")
    (constTransport SampleObject (some ⟨204, "204 No Content", [7, 0, 255]⟩, none)) "42"
    "events" ⟨"42", "payload"⟩ ⟨204, "204 No Content", [7, 0, 255]⟩ (by decide) (by decide)
  ⟨h.1 (respondsTo_const _ _ _ _), h.2.1 (respondsTo_const _ _ _ _),
    h.2.2.1 (respondsTo_const _ _ _ _), h.2.2.2 (respondsTo_const _ _ _ _)⟩

theorem failsWith_of_eq (r : Except Panic (Option GoError)) (msg : String)
    (parts : List String) (hr : r = .ok (some (.errorString msg)))
    (hp : ∀ p ∈ parts, carries msg p) :
    failsWith r msg parts := by
  subst hr
  exact ⟨rfl, by simp, by simp [ErrEntityNotFound], hp⟩

theorem errorOf_ok (b : List Byte) (e : Option GoError) : errorOf (.ok (b, e)) = .ok e := rfl

theorem requestFailed_parts (method : String) (n : Int) (s : String) :
    ∀ p ∈ [toString n, s], carries (requestFailed method n s) p := by
  intro p hp
  simp only [List.mem_cons, List.mem_singleton, List.not_mem_nil, or_false] at hp
  rcases hp with rfl | rfl
  · exact (requestFailed_carries method n _).1
  · exact (requestFailed_carries method n _).2

theorem transportFailed_parts (method : String) (n : Int) (s : String) (e : GoError) :
    ∀ p ∈ [e.Error], carries (transportFailed method n s e) p := by
  intro p hp
  simp only [List.mem_singleton] at hp
  subst hp
  exact transportFailed_carries method n s e

/-- C6: on a successful transport and a status outside `[200,300)` other than 404, each of
`GetOne`, `GetAll`, `Put` and `Delete` returns a non-nil error made by `fmt.Errorf`, which is
not `ErrEntityNotFound` and whose message carries the status code in decimal and the status
text of the response. -/
theorem failure_status_is_generic {α : Type} [InstanaDataObject α] (c : RestClientImpl)
    (t : Transport α) (id resourcePath : String) (data : α) (resp : Response)
    (hout : resp.StatusCode < 200 ∨ 300 ≤ resp.StatusCode) (h404 : resp.StatusCode ≠ 404) :
    (respondsTo t "GET" (c.buildResourceURL resourcePath id) (some resp, none) →
      failsWith (errorOf (c.GetOne t id resourcePath))
        (requestFailed "GET" resp.StatusCode resp.Status)
        [toString resp.StatusCode, resp.Status]) ∧
    (respondsTo t "GET" (c.buildURL resourcePath) (some resp, none) →
      failsWith (errorOf (c.GetAll t resourcePath))
        (requestFailed "GET" resp.StatusCode resp.Status)
        [toString resp.StatusCode, resp.Status]) ∧
    (respondsTo t "PUT" (c.buildResourceURL resourcePath (InstanaDataObject.GetID data))
        (some resp, none) →
      failsWith (errorOf (c.Put t data resourcePath))
        (requestFailed "PUT" resp.StatusCode resp.Status)
        [toString resp.StatusCode, resp.Status]) ∧
    (respondsTo t "DELETE" (c.buildResourceURL resourcePath id) (some resp, none) →
      failsWith (c.Delete t id resourcePath)
        (requestFailed "DELETE" resp.StatusCode resp.Status)
        [toString resp.StatusCode, resp.Status]) := by
  have hr : resp.StatusCode < 200 ∨ resp.StatusCode ≥ 300 := hout
  refine ⟨fun h => ?_, fun h => ?_, fun h => ?_, fun h => ?_⟩
  · refine failsWith_of_eq _ _ _ ?_ (requestFailed_parts _ _ _)
    unfold RestClientImpl.GetOne
    rw [get_answered c t _ resp h, if_neg h404, if_pos hr, errorOf_ok]
  · refine failsWith_of_eq _ _ _ ?_ (requestFailed_parts _ _ _)
    unfold RestClientImpl.GetAll
    rw [get_answered c t _ resp h, if_neg h404, if_pos hr, errorOf_ok]
  · refine failsWith_of_eq _ _ _ ?_ (requestFailed_parts _ _ _)
    rw [put_answered c t resp data resourcePath h, if_pos hr, errorOf_ok]
  · refine failsWith_of_eq _ _ _ ?_ (requestFailed_parts _ _ _)
    rw [delete_answered c t resp id resourcePath h, if_pos hr]

theorem failure_status_is_generic_witness :
    failsWith (errorOf ((NewClient "token" "host.example.com").GetOne
        (constTransport SampleObject (some ⟨503, "503 Service Unavailable", [9]⟩, none)) "42"
        "events"))
      (requestFailed "GET" 503 "503 Service Unavailable")
      [toString (503 : Int), "503 Service Unavailable"] ∧
    failsWith (errorOf ((NewClient "token" "host.example.com").GetAll
        (constTransport SampleObject (some ⟨503, "503 Service Unavailable", [9]⟩, none))
        "events"))
      (requestFailed "GET" 503 "503 Service Unavailable")
      [toString (503 : Int), "503 Service Unavailable"] ∧
    failsWith (errorOf ((NewClient "token" "host.example.com").Put
        (constTransport SampleObject (some ⟨503, "503 Service Unavailable", [9]⟩, none))
        ⟨"42", "payload"⟩ "events"))
      (requestFailed "PUT" 503 "503 Service Unavailable")
      [toString (503 : Int), "503 Service Unavailable"] ∧
    failsWith ((NewClient "token" "host.example.com").Delete
        (constTransport SampleObject (some ⟨503, "503 Service Unavailable", [9]⟩, none)) "42"
        "events")
      (requestFailed "DELETE" 503 "503 Service Unavailable")
      [toString (503 : Int), "503 Service Unavailable"] :=
  have h := failure_status_is_generic (NewClient "token" "host.example.com")
    (constTransport SampleObject (some ⟨503, "503 Service Unavailable", [9]⟩, none)) "42"
    "events" ⟨"42", "payload"⟩ ⟨503, "503 Service Unavailable", [9]⟩ (by decide) (by decide)
  ⟨h.1 (respondsTo_const _ _ _ _), h.2.1 (respondsTo_const _ _ _ _),
    h.2.2.1 (respondsTo_const _ _ _ _), h.2.2.2 (respondsTo_const _ _ _ _)⟩

/-- C7: on a successful transport and status 404, `Put` and `Delete` return the generic error
carrying the status code 404 and the status text, not `ErrEntityNotFound`. -/
theorem Put_Delete_not_found_is_generic {α : Type} [InstanaDataObject α] (c : RestClientImpl)
    (t : Transport α) (id resourcePath : String) (data : α) (resp : Response)
    (h404 : resp.StatusCode = 404) :
    (respondsTo t "PUT" (c.buildResourceURL resourcePath (InstanaDataObject.GetID data))
        (some resp, none) →
      c.Put t data resourcePath
          = .ok ([], some (.errorString (requestFailed "PUT" 404 resp.Status))) ∧
        failsWith (errorOf (c.Put t data resourcePath)) (requestFailed "PUT" 404 resp.Status)
          ["404", resp.Status]) ∧
    (respondsTo t "DELETE" (c.buildResourceURL resourcePath id) (some resp, none) →
      failsWith (c.Delete t id resourcePath) (requestFailed "DELETE" 404 resp.Status)
        ["404", resp.Status]) := by
  have hr : resp.StatusCode < 200 ∨ resp.StatusCode ≥ 300 := by omega
  refine ⟨fun h => ?_, fun h => ?_⟩
  · have he : c.Put t data resourcePath
        = .ok ([], some (.errorString (requestFailed "PUT" 404 resp.Status))) := by
      rw [put_answered c t resp data resourcePath h, if_pos hr, h404]; rfl
    exact ⟨he, failsWith_of_eq _ _ _ (by rw [he, errorOf_ok])
      (requestFailed_parts "PUT" 404 resp.Status)⟩
  · refine failsWith_of_eq _ _ _ ?_ (requestFailed_parts "DELETE" 404 resp.Status)
    rw [delete_answered c t resp id resourcePath h, if_pos hr, h404]

theorem Put_Delete_not_found_is_generic_witness :
    ((NewClient "token" "host.example.com").Put
          (constTransport SampleObject (some ⟨404, "404 Not Found", [9]⟩, none))
          ⟨"42", "payload"⟩ "events"
        = .ok ([], some (.errorString (requestFailed "PUT" 404 "404 Not Found"))) ∧
      failsWith (errorOf ((NewClient "token" "host.example.com").Put
          (constTransport SampleObject (some ⟨404, "404 Not Found", [9]⟩, none))
          ⟨"42", "payload"⟩ "events"))
        (requestFailed "PUT" 404 "404 Not Found") ["404", "404 Not Found"]) ∧
    failsWith ((NewClient "token" "host.example.com").Delete
        (constTransport SampleObject (some ⟨404, "404 Not Found", [9]⟩, none)) "42" "events")
      (requestFailed "DELETE" 404 "404 Not Found") ["404", "404 Not Found"] :=
  have h := Put_Delete_not_found_is_generic (NewClient "token" "host.example.com")
    (constTransport SampleObject (some ⟨404, "404 Not Found", [9]⟩, none)) "42" "events"
    ⟨"42", "payload"⟩ ⟨404, "404 Not Found", [9]⟩ rfl
  ⟨h.1 (respondsTo_const _ _ _ _), h.2 (respondsTo_const _ _ _ _)⟩

/-! ## Transport failures -/

/-- When the transport fails with cause `e` and hands back a response with the error, each of
`GetOne`, `GetAll`, `Put` and `Delete` returns a non-nil error made by `fmt.Errorf`, which is
not `ErrEntityNotFound` and whose message contains the text of `e`, whatever the status code
of that response: the check of the transport error comes before the classification of the
status. -/
theorem transport_failure_with_response {α : Type} [InstanaDataObject α] (c : RestClientImpl)
    (t : Transport α) (id resourcePath : String) (data : α) (resp : Response) (e : GoError) :
    (respondsTo t "GET" (c.buildResourceURL resourcePath id) (some resp, some e) →
      failsWith (errorOf (c.GetOne t id resourcePath))
        (transportFailed "GET" resp.StatusCode resp.Status e) [e.Error]) ∧
    (respondsTo t "GET" (c.buildURL resourcePath) (some resp, some e) →
      failsWith (errorOf (c.GetAll t resourcePath))
        (transportFailed "GET" resp.StatusCode resp.Status e) [e.Error]) ∧
    (respondsTo t "PUT" (c.buildResourceURL resourcePath (InstanaDataObject.GetID data))
        (some resp, some e) →
      failsWith (errorOf (c.Put t data resourcePath))
        (transportFailed "PUT" resp.StatusCode resp.Status e) [e.Error]) ∧
    (respondsTo t "DELETE" (c.buildResourceURL resourcePath id) (some resp, some e) →
      failsWith (c.Delete t id resourcePath)
        (transportFailed "DELETE" resp.StatusCode resp.Status e) [e.Error]) := by
  refine ⟨fun h => ?_, fun h => ?_, fun h => ?_, fun h => ?_⟩
  · refine failsWith_of_eq _ _ _ ?_ (transportFailed_parts _ _ _ _)
    unfold RestClientImpl.GetOne
    rw [get_transport_failure c t _ resp e h, errorOf_ok]
  · refine failsWith_of_eq _ _ _ ?_ (transportFailed_parts _ _ _ _)
    unfold RestClientImpl.GetAll
    rw [get_transport_failure c t _ resp e h, errorOf_ok]
  · refine failsWith_of_eq _ _ _ ?_ (transportFailed_parts _ _ _ _)
    rw [put_transport_failure c t resp data resourcePath e h, errorOf_ok]
  · refine failsWith_of_eq _ _ _ ?_ (transportFailed_parts _ _ _ _)
    rw [delete_transport_failure c t resp id resourcePath e h]

/-- When the transport hands back a response, `GetOne`, `GetAll` and `Put` return a non-nil
error exactly when the transport failed or the status is outside `[200,300)`, and with a
non-nil error the byte result is the sequence of length zero. -/
theorem error_iff_with_response {α : Type} [InstanaDataObject α] (c : RestClientImpl)
    (t : Transport α) (id resourcePath : String) (data : α) (resp : Response)
    (err : Option GoError) :
    (respondsTo t "GET" (c.buildResourceURL resourcePath id) (some resp, err) →
      ∃ bytes e, c.GetOne t id resourcePath = .ok (bytes, e) ∧
        (e ≠ none ↔ (err ≠ none ∨ resp.StatusCode < 200 ∨ 300 ≤ resp.StatusCode)) ∧
        (e ≠ none → bytes = [])) ∧
    (respondsTo t "GET" (c.buildURL resourcePath) (some resp, err) →
      ∃ bytes e, c.GetAll t resourcePath = .ok (bytes, e) ∧
        (e ≠ none ↔ (err ≠ none ∨ resp.StatusCode < 200 ∨ 300 ≤ resp.StatusCode)) ∧
        (e ≠ none → bytes = [])) ∧
    (respondsTo t "PUT" (c.buildResourceURL resourcePath (InstanaDataObject.GetID data))
        (some resp, err) →
      ∃ bytes e, c.Put t data resourcePath = .ok (bytes, e) ∧
        (e ≠ none ↔ (err ≠ none ∨ resp.StatusCode < 200 ∨ 300 ≤ resp.StatusCode)) ∧
        (e ≠ none → bytes = [])) := by
  have hget : ∀ url, respondsTo t "GET" url (some resp, err) →
      ∃ bytes e, c.get t url = .ok (bytes, e) ∧
        (e ≠ none ↔ (err ≠ none ∨ resp.StatusCode < 200 ∨ 300 ≤ resp.StatusCode)) ∧
        (e ≠ none → bytes = []) := by
    intro url h
    cases err with
    | some e =>
      exact ⟨_, _, get_transport_failure c t url resp e h, by simp, fun _ => rfl⟩
    | none =>
      rw [get_answered c t url resp h]
      by_cases h404 : resp.StatusCode = 404
      · rw [if_pos h404]
        exact ⟨_, _, rfl, by simp; omega, fun _ => rfl⟩
      · rw [if_neg h404]
        by_cases hr : resp.StatusCode < 200 ∨ resp.StatusCode ≥ 300
        · rw [if_pos hr]
          exact ⟨_, _, rfl, by simp; omega, fun _ => rfl⟩
        · rw [if_neg hr]
          exact ⟨_, _, rfl, by simp; omega, fun hn => absurd rfl hn⟩
  refine ⟨fun h => hget _ h, fun h => hget _ h, fun h => ?_⟩
  cases err with
  | some e =>
    exact ⟨_, _, put_transport_failure c t resp data resourcePath e h, by simp, fun _ => rfl⟩
  | none =>
    rw [put_answered c t resp data resourcePath h]
    by_cases hr : resp.StatusCode < 200 ∨ resp.StatusCode ≥ 300
    · rw [if_pos hr]
      exact ⟨_, _, rfl, by simp; omega, fun _ => rfl⟩
    · rw [if_neg hr]
      exact ⟨_, _, rfl, by simp; omega, fun hn => absurd rfl hn⟩

/-- C8 fails on the code: `GetOne` of id `%zz` builds a URL that `resty` cannot parse, so that
`Get` hands back the nil response with the error; formatting the error then calls
`StatusCode ()` on the nil response and the operation panics instead of returning the generic
error.  The same holds of `GetAll`, `Put` and `Delete` whenever the response is nil. -/
theorem transport_failure_nil_response_panics :
    (NewClient "token" "host.example.com").buildResourceURL "events" "%zz"
      = "https://host.example.com/api/events/%zz" ∧
    (NewClient "token" "host.example.com").GetOne
        (constTransport SampleObject (none, some (.errorString "invalid URL escape %zz")))
        "%zz" "events"
      = .error .nilPointerDereference ∧
    (NewClient "token" "host.example.com").GetAll
        (constTransport SampleObject (none, some (.errorString "invalid URL escape %zz")))
        "events/%zz"
      = .error .nilPointerDereference ∧
    (NewClient "token" "host.example.com").Put
        (constTransport SampleObject (none, some (.errorString "invalid URL escape %zz")))
        ⟨"%zz", "payload"⟩ "events"
      = .error .nilPointerDereference ∧
    (NewClient "token" "host.example.com").Delete
        (constTransport SampleObject (none, some (.errorString "invalid URL escape %zz")))
        "%zz" "events"
      = .error .nilPointerDereference ∧
    ∀ msg : String,
      ¬ failsWith (errorOf ((NewClient "token" "host.example.com").GetOne
          (constTransport SampleObject (none, some (.errorString "invalid URL escape %zz")))
          "%zz" "events")) msg ["invalid URL escape %zz"] := by
  refine ⟨rfl, rfl, rfl, rfl, rfl, fun msg h => ?_⟩
  have h1 := h.1
  have h2 : errorOf ((NewClient "token" "host.example.com").GetOne
      (constTransport SampleObject (none, some (.errorString "invalid URL escape %zz")))
      "%zz" "events") = .error .nilPointerDereference := rfl
  rw [h2] at h1
  cases h1

/-- C9 fails on the code: with the nil response that `resty` hands back when it cannot parse
the URL, the transport has failed, yet `GetOne`, `GetAll` and `Put` return neither an error
nor a byte result: they panic. -/
theorem nil_response_returns_nothing :
    (∀ r, (NewClient "token" "host.example.com").GetOne
        (constTransport SampleObject (none, some (.errorString "invalid URL escape %zz")))
        "%zz" "alerts" ≠ .ok r) ∧
    (∀ r, (NewClient "token" "host.example.com").GetAll
        (constTransport SampleObject (none, some (.errorString "invalid URL escape %zz")))
        "alerts/%zz" ≠ .ok r) ∧
    (∀ r, (NewClient "token" "host.example.com").Put
        (constTransport SampleObject (none, some (.errorString "invalid URL escape %zz")))
        ⟨"%zz", "payload"⟩ "alerts" ≠ .ok r) := by
  have h1 : (NewClient "token" "host.example.com").GetOne
      (constTransport SampleObject (none, some (.errorString "invalid URL escape %zz")))
      "%zz" "alerts" = .error .nilPointerDereference := rfl
  have h2 : (NewClient "token" "host.example.com").GetAll
      (constTransport SampleObject (none, some (.errorString "invalid URL escape %zz")))
      "alerts/%zz" = .error .nilPointerDereference := rfl
  have h3 : (NewClient "token" "host.example.com").Put
      (constTransport SampleObject (none, some (.errorString "invalid URL escape %zz")))
      ⟨"%zz", "payload"⟩ "alerts" = .error .nilPointerDereference := rfl
  refine ⟨fun r h => ?_, fun r h => ?_, fun r h => ?_⟩
  · rw [h1] at h; cases h
  · rw [h2] at h; cases h
  · rw [h3] at h; cases h

/-- Whatever error the transport reports, a nil response makes every operation panic. -/
theorem nil_response_panics {α : Type} [InstanaDataObject α] (c : RestClientImpl)
    (t : Transport α) (id resourcePath : String) (data : α) (err : Option GoError) :
    (respondsTo t "GET" (c.buildResourceURL resourcePath id) (none, err) →
      c.GetOne t id resourcePath = .error .nilPointerDereference) ∧
    (respondsTo t "GET" (c.buildURL resourcePath) (none, err) →
      c.GetAll t resourcePath = .error .nilPointerDereference) ∧
    (respondsTo t "PUT" (c.buildResourceURL resourcePath (InstanaDataObject.GetID data))
        (none, err) →
      c.Put t data resourcePath = .error .nilPointerDereference) ∧
    (respondsTo t "DELETE" (c.buildResourceURL resourcePath id) (none, err) →
      c.Delete t id resourcePath = .error .nilPointerDereference) :=
  ⟨fun h => get_nil_response c t _ err h, fun h => get_nil_response c t _ err h,
    fun h => put_nil_response c t data resourcePath err h,
    fun h => delete_nil_response c t id resourcePath err h⟩

/-! ## Slash normalisation -/

theorem no_slash_suffix_cons (P : String) (hne : P ≠ "") (he : ¬ ∃ q, P = q ++ "/") :
    ¬ ∃ q, "/" ++ P = q ++ "/" := by
  rintro ⟨q, hq⟩
  have hd := congrArg String.data hq
  rw [String.data_append, String.data_append, slash_data] at hd
  obtain ⟨l⟩ := q
  cases l with
  | nil =>
    simp at hd
    exact hne (String.ext hd)
  | cons a m =>
    simp at hd
    exact he ⟨⟨m⟩, String.ext (by rw [String.data_append, slash_data]; exact hd.2)⟩

theorem no_slash_prefix_append (P r : String) (hne : P ≠ "") (hs : ¬ ∃ q, P = "/" ++ q) :
    ¬ ∃ q, P ++ r = "/" ++ q := by
  rintro ⟨q, hq⟩
  have hd := congrArg String.data hq
  rw [String.data_append, String.data_append, slash_data] at hd
  obtain ⟨l⟩ := P
  cases l with
  | nil => exact hne rfl
  | cons a m =>
    simp at hd
    exact hs ⟨⟨m⟩, String.ext (by rw [String.data_append, slash_data]; simp [hd.1])⟩

theorem buildResourceURL_normal (c : RestClientImpl) (P I : String) (hne : P ≠ "")
    (hs : ¬ ∃ q, P = "/" ++ q) (he : ¬ ∃ q, P = q ++ "/") :
    ∀ Q ∈ [P, "/" ++ P, P ++ "/", "/" ++ P ++ "/"],
      c.buildResourceURL Q I = "https://" ++ c.host ++ "/api/" ++ P ++ "/" ++ I := by
  have hP : ¬ strings.HasSuffix P "/" = true := fun hh => he ((hasSuffix_slash P).1 hh)
  have hsP : ¬ strings.HasSuffix ("/" ++ P) "/" = true := fun hh =>
    no_slash_suffix_cons P hne he ((hasSuffix_slash _).1 hh)
  have hPs : strings.HasSuffix (P ++ "/") "/" = true := (hasSuffix_slash _).2 ⟨P, rfl⟩
  have hsPs : strings.HasSuffix ("/" ++ P ++ "/") "/" = true :=
    (hasSuffix_slash _).2 ⟨"/" ++ P, rfl⟩
  intro Q hQ
  simp only [List.mem_cons, List.mem_singleton, List.not_mem_nil, or_false] at hQ
  rcases hQ with rfl | rfl | rfl | rfl
  · rw [buildResourceURL_eq, if_neg hP,
      buildURL_of_no_slash c _ (by
        rw [String.append_assoc]; exact no_slash_prefix_append Q _ hne hs)]
    apply String.ext
    simp [String.data_append]
  · rw [buildResourceURL_eq, if_neg hsP, String.append_assoc, String.append_assoc,
      buildURL_of_slash]
    apply String.ext
    simp [String.data_append]
  · rw [buildResourceURL_eq, if_pos hPs,
      buildURL_of_no_slash c _ (by
        rw [String.append_assoc]; exact no_slash_prefix_append P _ hne hs)]
    apply String.ext
    simp [String.data_append]
  · rw [buildResourceURL_eq, if_pos hsPs, String.append_assoc, String.append_assoc,
      buildURL_of_slash]
    apply String.ext
    simp [String.data_append]

/-- C10: for a non-empty base path `P` that neither starts nor ends with a slash, the four
spellings `P`, `/P`, `P/` and `/P/` give the same resource URL `https://H/api/P/I`, so that
`GetOne`, `Put` and `Delete` do the same over every transport whichever spelling is used. -/
theorem slash_normalisation {α : Type} [InstanaDataObject α] (apiToken H P I : String)
    (hne : P ≠ "") (hs : ¬ ∃ q, P = "/" ++ q) (he : ¬ ∃ q, P = q ++ "/") :
    ∀ Q ∈ [P, "/" ++ P, P ++ "/", "/" ++ P ++ "/"],
      (NewClient apiToken H).buildResourceURL Q I
          = "https://" ++ H ++ "/api/" ++ P ++ "/" ++ I ∧
        ∀ t : Transport α,
          (NewClient apiToken H).GetOne t I Q = (NewClient apiToken H).GetOne t I P ∧
          (NewClient apiToken H).Delete t I Q = (NewClient apiToken H).Delete t I P ∧
          ∀ data : α, InstanaDataObject.GetID data = I →
            (NewClient apiToken H).Put t data Q = (NewClient apiToken H).Put t data P := by
  intro Q hQ
  have hQu := buildResourceURL_normal (NewClient apiToken H) P I hne hs he Q hQ
  have hPu := buildResourceURL_normal (NewClient apiToken H) P I hne hs he P (by simp)
  refine ⟨hQu, fun t => ⟨?_, ?_, fun data hd => ?_⟩⟩
  · simp only [RestClientImpl.GetOne, hQu, hPu]
  · simp only [RestClientImpl.Delete, hQu, hPu]
  · subst hd
    simp only [RestClientImpl.Put, hQu, hPu]

theorem slash_normalisation_witness :
    (NewClient "token" "host.example.com").buildResourceURL ("/" ++ "events" ++ "/") "42"
        = "https://" ++ "host.example.com" ++ "/api/" ++ "events" ++ "/" ++ "42" ∧
      (NewClient "token" "host.example.com").buildResourceURL ("/" ++ "events") "42"
        = "https://" ++ "host.example.com" ++ "/api/" ++ "events" ++ "/" ++ "42" ∧
      (NewClient "token" "host.example.com").GetOne
          (constTransport SampleObject (some ⟨200, "200 OK", [9]⟩, none)) "42"
          ("/" ++ "events" ++ "/")
        = (NewClient "token" "host.example.com").GetOne
          (constTransport SampleObject (some ⟨200, "200 OK", [9]⟩, none)) "42" "events" :=
  have h := @slash_normalisation SampleObject _ "token" "host.example.com" "events" "42"
    (by decide)
    (fun h => by rw [← hasPrefix_slash] at h; revert h; decide)
    (fun h => by rw [← hasSuffix_slash] at h; revert h; decide)
  ⟨(h ("/" ++ "events" ++ "/") (by simp)).1, (h ("/" ++ "events") (by simp)).1,
    ((h ("/" ++ "events" ++ "/") (by simp)).2
      (constTransport SampleObject (some ⟨200, "200 OK", [9]⟩, none))).1⟩

end Instana
